import Mathlib

/-!
# Verification of the IDS4 supervisory control loop

Shallow embedding of the Python modules under `python_env/modules/`
(`resource_controller.py`, `connectivity_async.py`, `config_manager.py`,
`docker_manager.py`, `metrics_server.py`, `vector_manager.py`,
`aws_manager.py`) together with proofs about the health-aggregation,
throttling, retry/backoff and store-access behaviour they implement.

The shared state (`multiprocessing.Manager().dict()`) is modelled as an
association list of string keys to dynamic values; a `set` prepends and a
`get` returns the most recent binding.  CPU/RAM percentages are modelled
as rationals.  Python exceptions are modelled with `Except`.
-/

/-- A dynamic value stored in the shared state dictionary. -/
inductive PyVal where
  | bool : Bool → PyVal
  | num : ℚ → PyVal
  | str : String → PyVal
deriving DecidableEq, Repr

/-- The shared state store: latest bindings first. -/
abbrev Store := List (String × PyVal)

/-- Embeds `shared_state[k] = v`: overwrite the binding for `k`. -/
def Store.set (st : Store) (k : String) (v : PyVal) : Store :=
  (k, v) :: st

/-- Embeds `shared_state.get(k)` with no default: the most recent binding, if any. -/
def Store.get (st : Store) (k : String) : Option PyVal :=
  (st.find? (fun p => p.1 == k)).map (fun p => p.2)

/-- Embeds `shared_state.get(k, d)`: the most recent binding for `k`, or `d`. -/
def Store.getD (st : Store) (k : String) (d : PyVal) : PyVal :=
  match st.get k with
  | some v => v
  | none => d

/-! ## ResourceController (`resource_controller.py`)

`_apply_throttling` computes the throttling level from the current CPU and
RAM usage and the configured limits, then publishes it under
`throttling_level`.  The level computation is the nested conditional of the
source, lines 28–45. -/

/-- The level computed by `ResourceController._apply_throttling`:
`current_throttling_level` after the nested `if` cascade of the source. -/
def applyThrottlingLevel (cpu ram cpuLimit ramLimit : ℚ) : Nat :=
  if cpu > cpuLimit ∨ ram > ramLimit then
    if cpu > cpuLimit + 10 ∨ ram > ramLimit + 10 then 3
    else if cpu > cpuLimit + 5 ∨ ram > ramLimit + 5 then 2
    else 1
  else 0

/-- Embeds `ResourceController._apply_throttling`: computes the level and writes it
to the shared state under `throttling_level`. -/
def applyThrottling (cpu ram cpuLimit ramLimit : ℚ) (st : Store) : Store :=
  st.set "throttling_level" (.num (applyThrottlingLevel cpu ram cpuLimit ramLimit))

/-- The flat cascade the specification describes: Severe past limit+10,
Moderate past limit+5, Light past the limit, Normal otherwise. -/
def throttlingLevelSpec (cpu ram cpuLimit ramLimit : ℚ) : Nat :=
  if cpu > cpuLimit + 10 ∨ ram > ramLimit + 10 then 3
  else if cpu > cpuLimit + 5 ∨ ram > ramLimit + 5 then 2
  else if cpu > cpuLimit ∨ ram > ramLimit then 1
  else 0

/-- C2: for every pair of usages and limits the nested conditional of
`_apply_throttling` computes exactly the flat Severe/Moderate/Light/Normal
cascade of the spec, and with limits 70/70 the samples (71,0), (76,0),
(81,0), (70,70) give levels 1, 2, 3, 0 respectively. -/
theorem applyThrottling_is_pure_cascade :
    (∀ cpu ram cpuLimit ramLimit : ℚ,
      applyThrottlingLevel cpu ram cpuLimit ramLimit =
        throttlingLevelSpec cpu ram cpuLimit ramLimit) ∧
    applyThrottlingLevel 71 0 70 70 = 1 ∧
    applyThrottlingLevel 76 0 70 70 = 2 ∧
    applyThrottlingLevel 81 0 70 70 = 3 ∧
    applyThrottlingLevel 70 70 70 70 = 0 := by
  refine ⟨fun cpu ram cpuLimit ramLimit => ?_, ?_, ?_, ?_, ?_⟩
  · unfold applyThrottlingLevel throttlingLevelSpec
    by_cases h3 : cpu > cpuLimit + 10 ∨ ram > ramLimit + 10
    · have h0 : cpu > cpuLimit ∨ ram > ramLimit := by
        rcases h3 with h | h
        · exact Or.inl (by linarith)
        · exact Or.inr (by linarith)
      simp [h0, h3]
    · by_cases h2 : cpu > cpuLimit + 5 ∨ ram > ramLimit + 5
      · have h0 : cpu > cpuLimit ∨ ram > ramLimit := by
          rcases h2 with h | h
          · exact Or.inl (by linarith)
          · exact Or.inr (by linarith)
        simp [h0, h2, h3]
      · by_cases h1 : cpu > cpuLimit ∨ ram > ramLimit
        · simp [h1, h2, h3]
        · simp [h1, h2, h3]
  all_goals norm_num [applyThrottlingLevel]

/-! ## Retry/Backoff Executor (`connectivity_async.py`, `_retry_operation`)

The loop `retries = 0; while retries < max_retries: try: return await func(...)
except: retries += 1; if retries >= max_retries: raise;
sleep(initial_backoff * 2 ** retries)` is embedded as structural recursion
on the remaining iteration budget `max_retries - retries`.  The operation is
modelled as a map from the attempt index (number of prior failures) to its
outcome, and the trace records the returned or raised value, every sleep
performed, and every attempt index at which the operation was invoked. -/

/-- Observable trace of one `_retry_operation` invocation: `result` is
`none` when the `while` loop falls through (only possible if
`max_retries = 0`), `sleeps` lists the backoff waits performed in order, and
`attempts` lists the attempt indices at which `func` was actually called. -/
structure RetryTrace (E A : Type) where
  result : Option (Except E A)
  sleeps : List Nat
  attempts : List Nat

/-- Loop body of `_retry_operation`, with `retries` the current retry
counter and the final argument the remaining budget `max_retries - retries`. -/
def retryLoop {E A : Type} (func : Nat → Except E A) (initialBackoff : Nat)
    (retries : Nat) : Nat → RetryTrace E A
  | 0 => ⟨none, [], []⟩
  | remaining + 1 =>
    match func retries with
    | .ok a => ⟨some (.ok a), [], [retries]⟩
    | .error e =>
      match remaining with
      | 0 => ⟨some (.error e), [], [retries]⟩
      | r + 1 =>
        let t := retryLoop func initialBackoff (retries + 1) (r + 1)
        ⟨t.result, initialBackoff * 2 ^ (retries + 1) :: t.sleeps, retries :: t.attempts⟩

/-- Embeds `ConnectivityAsync._retry_operation func` with the given attempt cap and
initial backoff (the class fixes `max_retries = 5`, `initial_backoff = 1`). -/
def retryOperation {E A : Type} (func : Nat → Except E A)
    (maxRetries initialBackoff : Nat) : RetryTrace E A :=
  retryLoop func initialBackoff 0 maxRetries

/-- C3: with `max_attempts = 5`, `initial_backoff = 1`: if the operation
first succeeds on attempt `k` (zero-indexed, `k < 5`) its result is returned
at once, the operation having been invoked exactly on attempts `0..k` with
waits `2,4,…,2^k` between them; if all five attempts fail, the waits are
exactly `[2,4,8,16]`, the fifth attempt's error is raised, and the
operation is invoked exactly on attempts `0..4` — never a sixth time. -/
theorem retryOperation_behavior {A : Type} (func : Nat → Except String A) :
    (∀ k a, k < 5 → (∀ i, i < k → ∃ e, func i = Except.error e) →
      func k = Except.ok a →
      retryOperation func 5 1 =
        ⟨some (Except.ok a), (List.range k).map (fun i => 2 ^ (i + 1)),
          List.range (k + 1)⟩) ∧
    (∀ e₀ e₁ e₂ e₃ e₄, func 0 = .error e₀ → func 1 = .error e₁ →
      func 2 = .error e₂ → func 3 = .error e₃ → func 4 = .error e₄ →
      retryOperation func 5 1 =
        ⟨some (Except.error e₄), [2, 4, 8, 16], [0, 1, 2, 3, 4]⟩) := by
  constructor
  · intro k a hk hfail hok
    interval_cases k
    · simp [retryOperation, retryLoop, hok]
      decide
    · obtain ⟨e₀, h₀⟩ := hfail 0 (by norm_num)
      simp [retryOperation, retryLoop, h₀, hok]
      decide
    · obtain ⟨e₀, h₀⟩ := hfail 0 (by norm_num)
      obtain ⟨e₁, h₁⟩ := hfail 1 (by norm_num)
      simp [retryOperation, retryLoop, h₀, h₁, hok]
      decide
    · obtain ⟨e₀, h₀⟩ := hfail 0 (by norm_num)
      obtain ⟨e₁, h₁⟩ := hfail 1 (by norm_num)
      obtain ⟨e₂, h₂⟩ := hfail 2 (by norm_num)
      simp [retryOperation, retryLoop, h₀, h₁, h₂, hok]
      decide
    · obtain ⟨e₀, h₀⟩ := hfail 0 (by norm_num)
      obtain ⟨e₁, h₁⟩ := hfail 1 (by norm_num)
      obtain ⟨e₂, h₂⟩ := hfail 2 (by norm_num)
      obtain ⟨e₃, h₃⟩ := hfail 3 (by norm_num)
      simp [retryOperation, retryLoop, h₀, h₁, h₂, h₃, hok]
      decide
  · intro e₀ e₁ e₂ e₃ e₄ h₀ h₁ h₂ h₃ h₄
    simp [retryOperation, retryLoop, h₀, h₁, h₂, h₃, h₄]

/-- Witness for C3: a concrete operation failing twice then succeeding, and
one failing on all five attempts, evaluated through the theorem. -/
theorem retryOperation_behavior_witness :
    retryOperation (fun i => if i < 2 then Except.error "boom" else Except.ok (7 : Nat)) 5 1 =
      ⟨some (Except.ok 7), [2, 4], [0, 1, 2]⟩ ∧
    retryOperation (fun i => (Except.error (toString i) : Except String Nat)) 5 1 =
      ⟨some (Except.error "4"), [2, 4, 8, 16], [0, 1, 2, 3, 4]⟩ := by
  constructor
  · have h := (retryOperation_behavior
        (fun i => if i < 2 then Except.error "boom" else Except.ok (7 : Nat))).1
        2 7 (by norm_num) (fun i hi => ⟨"boom", by interval_cases i <;> rfl⟩) (by norm_num)
    simpa using h
  · exact (retryOperation_behavior
      (fun i => (Except.error (toString i) : Except String Nat))).2
      "0" "1" "2" "3" "4" rfl rfl rfl rfl rfl

/-! ## Connectivity cycle aggregation (`connectivity_async.py`,
`run_connectivity_checks`)

`asyncio.gather(*tasks, return_exceptions=True)` yields, per task, either
its returned boolean or the exception it raised; the cycle then computes
`pipeline_ok = all(r is True for r in results if not isinstance(r, Exception))`
and publishes it under `pipeline_ok`. -/

/-- Result of one gathered connectivity task: its returned boolean, or the
exception it raised (after the retry executor exhausted its attempts). -/
inductive CheckResult where
  | val : Bool → CheckResult
  | exn : String → CheckResult
deriving DecidableEq, Repr

/-- Embeds `isinstance(r, Exception)` on a gathered result. -/
def CheckResult.isExn : CheckResult → Bool
  | .val _ => false
  | .exn _ => true

/-- Embeds `all(r is True for r in results if not isinstance(r, Exception))`:
source line 148 of `run_connectivity_checks`. -/
def pipelineOk (results : List CheckResult) : Bool :=
  (results.filter (fun r => !r.isExn)).all (fun r => r == .val true)

/-- The aggregation the claim describes, following the spec's words: the
AND over all results where a raised task counts as `false`. -/
def pipelineOkClaimed (results : List CheckResult) : Bool :=
  results.all (fun r => r == .val true)

/-- The tail of one connectivity cycle: compute `pipeline_ok` from the
gathered results and publish it to the shared state. -/
def connectivityCycle (results : List CheckResult) (st : Store) : Store :=
  st.set "pipeline_ok" (.bool (pipelineOk results))

/-- Counterexample to C1: in a cycle where the TLS task raised and the
three other checks returned `True`, the code publishes `pipeline_ok = true`,
while the claim (a raised task counts as `false` and forces the conjunction
to `false`) demands `false`. -/
theorem pipelineOk_ignores_raised_task :
    (connectivityCycle [.val true, .exn "TlsError", .val true, .val true] []).get
        "pipeline_ok" = some (.bool true) ∧
    pipelineOkClaimed [.val true, .exn "TlsError", .val true, .val true] = false := by
  constructor
  · rfl
  · rfl

/-- C1 amended: every cycle publishes under `pipeline_ok` the AND over the
results that did **not** raise; a raised task is skipped by the filter (it
never contributes `false`), so a task that returned `False` forces the
verdict to `false` but a raised task alone leaves it `true`. -/
theorem connectivityCycle_publishes_filtered_and (results : List CheckResult) (st : Store) :
    (connectivityCycle results st).get "pipeline_ok" = some (.bool (pipelineOk results)) ∧
    pipelineOk results =
      results.all (fun r => match r with | .val b => b | .exn _ => true) := by
  refine ⟨rfl, ?_⟩
  induction results with
  | nil => rfl
  | cons r rest ih =>
    cases r with
    | val b =>
      cases b
      · simp [pipelineOk, CheckResult.isExn, List.filter, List.all] at ih ⊢
      · simp [pipelineOk, CheckResult.isExn, List.filter, List.all] at ih ⊢
        simpa [pipelineOk] using ih
    | exn e => simpa [pipelineOk, CheckResult.isExn, List.filter, List.all] using ih

/-! ## OpenSearch health check (`connectivity_async.py`,
`check_opensearch_bulk_test`)

The HTTP call either yields a status code, raises `aiohttp.ClientError`
(transport error), or raises some other exception.  The source returns
`True` on status 200, returns `False` on any other status, and in both
`except` handlers records the error in the store and then `raise`s. -/

/-- Outcome of the `session.get` call inside the check. -/
inductive HttpOutcome where
  | status : Nat → HttpOutcome
  | clientError : String → HttpOutcome
  | otherError : String → HttpOutcome
deriving DecidableEq, Repr

/-- Embeds `ConnectivityAsync.check_opensearch_bulk_test`: first component is the
returned boolean or the re-raised exception, second the updated store.
`endpoint = none` models a falsy `opensearch_endpoint`. -/
def checkOpensearchBulkTest (endpoint : Option String) (resp : HttpOutcome)
    (st : Store) : Except String Bool × Store :=
  match endpoint with
  | none => (.ok false, st.set "aws_ready" (.bool false))
  | some _ =>
    match resp with
    | .status code =>
      if code == 200 then (.ok true, st.set "aws_ready" (.bool true))
      else (.ok false,
        (st.set "aws_ready" (.bool false)).set "last_error"
          (.str ("OpenSearch health check failed: " ++ toString code)))
    | .clientError e =>
      (.error ("OpenSearch HTTP client error: " ++ e),
        (st.set "aws_ready" (.bool false)).set "last_error"
          (.str ("OpenSearch HTTP client error: " ++ e)))
    | .otherError e =>
      (.error ("OpenSearch test error: " ++ e),
        (st.set "aws_ready" (.bool false)).set "last_error"
          (.str ("OpenSearch test error: " ++ e)))

/-- Counterexample to C4: at a configured endpoint, a transport error
(`aiohttp.ClientError`, e.g. connection refused) is re-raised by the
`except` handler, so it does raise past the check — the check does not
swallow it as a plain failure. -/
theorem checkOpensearchBulkTest_raises_on_transport_error :
    (checkOpensearchBulkTest (some "https://os.example") (.clientError "Cannot connect") []).1 =
      Except.error "OpenSearch HTTP client error: Cannot connect" := rfl

/-- C4 amended: with a configured endpoint the check returns `True` iff the
HTTP status is exactly 200; any other status returns `False` without
raising; a transport error or unexpected exception sets `aws_ready` to
`false`, records `last_error`, and re-raises (the surrounding retry
executor, not the check, absorbs it). -/
theorem checkOpensearchBulkTest_status_and_errors (ep : String) (resp : HttpOutcome)
    (st : Store) :
    ((checkOpensearchBulkTest (some ep) resp st).1 = Except.ok true ↔ resp = .status 200) ∧
    (checkOpensearchBulkTest (some ep) resp st).1 =
      (match resp with
       | .status code => Except.ok (code == 200)
       | .clientError e => Except.error ("OpenSearch HTTP client error: " ++ e)
       | .otherError e => Except.error ("OpenSearch test error: " ++ e)) ∧
    (checkOpensearchBulkTest (some ep) resp st).2.get "aws_ready" =
      some (.bool (resp == .status 200)) := by
  rcases resp with code | e | e
  · by_cases h : code = 200
    · subst h
      refine ⟨by simp [checkOpensearchBulkTest], rfl, rfl⟩
    · simp [checkOpensearchBulkTest, h, Store.get, Store.set, List.find?]
  · simp [checkOpensearchBulkTest, Store.get, Store.set, List.find?]
  · simp [checkOpensearchBulkTest, Store.get, Store.set, List.find?]

/-- Witness for C4's amended statement: status 200 succeeds, status 503
returns `False` without raising, and an unexpected error publishes
`aws_ready = false` (and raises, per the counterexample). -/
theorem checkOpensearchBulkTest_status_and_errors_witness :
    (checkOpensearchBulkTest (some "https://os.example") (.status 200) []).1 =
      Except.ok true ∧
    (checkOpensearchBulkTest (some "https://os.example") (.status 503) []).1 =
      Except.ok false ∧
    (checkOpensearchBulkTest (some "https://os.example") (.otherError "timeout") []).2.get
      "aws_ready" = some (.bool false) := by
  refine ⟨?_, ?_, ?_⟩
  · exact (checkOpensearchBulkTest_status_and_errors "https://os.example"
      (.status 200) []).1.mpr rfl
  · have h := (checkOpensearchBulkTest_status_and_errors "https://os.example"
      (.status 503) []).2.1
    simpa using h
  · have h := (checkOpensearchBulkTest_status_and_errors "https://os.example"
      (.otherError "timeout") []).2.2
    simpa using h

/-! ## Resource controller worker loop (`resource_controller.py`, `run`)

One tick of `run`: sample metrics with `_get_system_metrics`, publish
`cpu_usage` and `ram_usage`, then `_apply_throttling`.  The loop body has
no `try/except`, so a raised sampling error propagates out of `run`.  The
sampling outcome is modelled as `Except`. -/

/-- One iteration of `ResourceController.run`: first component `.error e`
means the tick raised (the exception leaves the worker loop uncaught),
second component is the store after the tick. -/
def resourceTick (metrics : Except String (ℚ × ℚ)) (cpuLimit ramLimit : ℚ)
    (st : Store) : Except String Unit × Store :=
  match metrics with
  | .error e => (.error e, st)
  | .ok (cpu, ram) =>
    (.ok (),
      applyThrottling cpu ram cpuLimit ramLimit
        ((st.set "cpu_usage" (.num cpu)).set "ram_usage" (.num ram)))

/-- Counterexample to C5: with a previous throttling level of 2 in the
store, a failing metrics sample makes the tick raise — the worker loop has
no handler, so the error crosses the worker boundary instead of being
caught and the loop continued. -/
theorem resourceTick_propagates_sampling_error :
    resourceTick (.error "psutil failed") 70 70 [("throttling_level", .num 2)] =
      (.error "psutil failed", [("throttling_level", .num 2)]) := rfl

/-- C5 amended: a sampling failure is not caught — the exception propagates
out of the worker loop (terminating it) — while the store is left entirely
unchanged, so `throttling_level` keeps its previous value only because no
write at all happens, not because the worker handles the error and
continues. -/
theorem resourceTick_error_leaves_store_unchanged (e : String) (cpuLimit ramLimit : ℚ)
    (st : Store) :
    resourceTick (.error e) cpuLimit ramLimit st = (.error e, st) ∧
    (resourceTick (.error e) cpuLimit ramLimit st).2.get "throttling_level" =
      st.get "throttling_level" := ⟨rfl, rfl⟩

/-! ## Log-shipper health and metrics exporter (`vector_manager.py`,
`metrics_server.py`)

`check_vector_health` branches on `shared_state.get('docker_healthy', False)`;
`_update_metrics` reads every exported field with `shared_state.get(key,
default)` and sets the Prometheus gauges, writing nothing back. -/

/-- Python truthiness of a stored value, as used by `if shared_state.get(...)`. -/
def PyVal.truthy : PyVal → Bool
  | .bool b => b
  | .num q => q != 0
  | .str s => s != ""

/-- Numeric coercion applied when a stored value is handed to `Gauge.set`. -/
def PyVal.asNum : PyVal → ℚ
  | .num q => q
  | .bool b => if b then 1 else 0
  | .str _ => 0

/-- Embeds `VectorManager.check_vector_health`: derives the shipper's health from
the `docker_healthy` store entry, publishing `vector_healthy` (and
`last_error` on the unhealthy branch). -/
def checkVectorHealth (st : Store) : Bool × Store :=
  if (st.getD "docker_healthy" (.bool false)).truthy then
    (true, st.set "vector_healthy" (.bool true))
  else
    (false,
      (st.set "vector_healthy" (.bool false)).set "last_error"
        (.str "Vector container not healthy."))

/-- The Prometheus gauges set by `MetricsServer._update_metrics` (the two
counters are incremented by producers, not touched here). -/
structure Metrics where
  cpuUsage : ℚ
  ramUsage : ℚ
  redisQueueDepth : ℚ
  vectorHealth : ℚ
  awsReady : ℚ
  redisReady : ℚ
  pipelineOkGauge : ℚ
  throttlingLevel : ℚ
deriving DecidableEq, Repr

/-- Embeds `MetricsServer._update_metrics`: one gauge refresh from the store; the
function only reads (`shared_state.get`) and performs no store write. -/
def updateMetrics (st : Store) : Metrics :=
  { cpuUsage := (st.getD "cpu_usage" (.num 0)).asNum
    ramUsage := (st.getD "ram_usage" (.num 0)).asNum
    redisQueueDepth := (st.getD "redis_queue_depth" (.num 0)).asNum
    vectorHealth := if (st.getD "vector_healthy" (.bool false)).truthy then 1 else 0
    awsReady := if (st.getD "aws_ready" (.bool false)).truthy then 1 else 0
    redisReady := if (st.getD "redis_ready" (.bool false)).truthy then 1 else 0
    pipelineOkGauge := if (st.getD "pipeline_ok" (.bool false)).truthy then 1 else 0
    throttlingLevel := (st.getD "throttling_level" (.num 0)).asNum }

/-- Runs `n` iterations of the `MetricsServer.run` loop body (`_update_metrics`
then sleep), threading the store through each cycle and collecting the
successive gauge snapshots. -/
def metricsRun : Nat → Store → List Metrics × Store
  | 0, st => ([], st)
  | n + 1, st =>
    let m := updateMetrics st
    let rest := metricsRun n st
    (m :: rest.1, rest.2)

/-- When a key has never been written, `get(key, default)` yields the
default. -/
theorem Store.getD_eq_of_get_none {st : Store} {k : String} {d : PyVal}
    (h : st.get k = none) : st.getD k d = d := by
  simp [Store.getD, h]

/-- Counterexample to C6: on a store where `docker_healthy` (and the
readiness keys) have never been written, the log-shipper check concludes
"unhealthy" — it returns `False`, publishes `vector_healthy = False` and an
error message — and the exporter reports the readiness gauges as 0. -/
theorem absent_docker_healthy_marks_unhealthy :
    (checkVectorHealth []).1 = false ∧
    (checkVectorHealth []).2.get "vector_healthy" = some (.bool false) ∧
    (checkVectorHealth []).2.get "last_error" =
      some (.str "Vector container not healthy.") ∧
    (updateMetrics []).vectorHealth = 0 ∧
    (updateMetrics []).awsReady = 0 ∧
    (updateMetrics []).pipelineOkGauge = 0 := by
  refine ⟨rfl, rfl, rfl, ?_, ?_, ?_⟩ <;> norm_num [updateMetrics, Store.getD, Store.get,
    PyVal.truthy]

/-- C6 amended: readers default an absent key to `False`, not "unknown":
whenever `docker_healthy` is absent, `check_vector_health` returns `False`
and publishes `vector_healthy = False` with a `last_error`; whenever the
readiness keys are absent, `_update_metrics` reports their gauges as 0. -/
theorem absent_key_defaults_false (st : Store)
    (hd : st.get "docker_healthy" = none) (hv : st.get "vector_healthy" = none)
    (ha : st.get "aws_ready" = none) (hp : st.get "pipeline_ok" = none) :
    (checkVectorHealth st).1 = false ∧
    (checkVectorHealth st).2.get "vector_healthy" = some (.bool false) ∧
    (checkVectorHealth st).2.get "last_error" =
      some (.str "Vector container not healthy.") ∧
    (updateMetrics st).vectorHealth = 0 ∧
    (updateMetrics st).awsReady = 0 ∧
    (updateMetrics st).pipelineOkGauge = 0 := by
  have hd' := Store.getD_eq_of_get_none (d := PyVal.bool false) hd
  have hv' := Store.getD_eq_of_get_none (d := PyVal.bool false) hv
  have ha' := Store.getD_eq_of_get_none (d := PyVal.bool false) ha
  have hp' := Store.getD_eq_of_get_none (d := PyVal.bool false) hp
  refine ⟨?_, ?_, ?_, ?_, ?_, ?_⟩
  · simp [checkVectorHealth, hd', PyVal.truthy]
  · simp [checkVectorHealth, hd', PyVal.truthy, Store.get, Store.set, List.find?]
  · simp [checkVectorHealth, hd', PyVal.truthy, Store.get, Store.set, List.find?]
  · simp [updateMetrics, hv', PyVal.truthy]
  · simp [updateMetrics, ha', PyVal.truthy]
  · simp [updateMetrics, hp', PyVal.truthy]

/-- Witness for C6's amended statement at a store holding only a CPU
sample, so every health key is absent. -/
theorem absent_key_defaults_false_witness :
    (checkVectorHealth [("cpu_usage", PyVal.num 50)]).1 = false ∧
    (checkVectorHealth [("cpu_usage", PyVal.num 50)]).2.get "vector_healthy" =
      some (.bool false) ∧
    (checkVectorHealth [("cpu_usage", PyVal.num 50)]).2.get "last_error" =
      some (.str "Vector container not healthy.") ∧
    (updateMetrics [("cpu_usage", PyVal.num 50)]).vectorHealth = 0 ∧
    (updateMetrics [("cpu_usage", PyVal.num 50)]).awsReady = 0 ∧
    (updateMetrics [("cpu_usage", PyVal.num 50)]).pipelineOkGauge = 0 :=
  absent_key_defaults_false [("cpu_usage", PyVal.num 50)] rfl rfl rfl rfl

/-- C8: the metrics exporter never writes the store — after any number of
`run` cycles the store is exactly the input store, and with no intervening
writes every scrape returns the identical gauge snapshot. -/
theorem metricsRun_never_writes (n : Nat) (st : Store) :
    (metricsRun n st).2 = st ∧
    (metricsRun n st).1 = List.replicate n (updateMetrics st) := by
  induction n with
  | zero => exact ⟨rfl, rfl⟩
  | succ n ih => simp [metricsRun, ih.1, ih.2, List.replicate]

/-! ## Container-stack health (`docker_manager.py`, `check_stack_health`)

With the daemon reachable, the source walks `required_services` in order;
a container whose status is not `'running'`, a `docker.errors.NotFound`,
or any other per-service error sets `all_healthy = False` and `break`s.
After the loop it publishes `docker_healthy` and, when unhealthy, a
`last_error`. -/

/-- Outcome of `client.containers.get` for one service. -/
inductive ServiceStatus where
  | status : String → ServiceStatus
  | notFound : ServiceStatus
  | probeError : String → ServiceStatus
deriving DecidableEq, Repr

/-- A service passes its iteration iff the container was found with status
`'running'`; every other outcome takes a `break` branch of the source. -/
def serviceHealthy : ServiceStatus → Bool
  | .status s => s == "running"
  | .notFound => false
  | .probeError _ => false

/-- The `for service_name in required_services` loop: returns `all_healthy`
together with how many services were actually examined before the loop
ended. -/
def stackHealthLoop : List ServiceStatus → Bool × Nat
  | [] => (true, 0)
  | s :: rest =>
    if serviceHealthy s then
      let r := stackHealthLoop rest
      (r.1, r.2 + 1)
    else (false, 1)

/-- Embeds `DockerManager.check_stack_health` after a successful daemon ping:
runs the loop, publishes `docker_healthy`, and records `last_error` when
unhealthy. -/
def checkStackHealth (services : List ServiceStatus) (st : Store) : Bool × Store :=
  let r := stackHealthLoop services
  let st1 := st.set "docker_healthy" (.bool r.1)
  (r.1, if r.1 then st1 else st1.set "last_error" (.str "Docker stack not healthy."))

/-- A prefix of running services followed by a failing one stops the loop
right at the failing service. -/
theorem stackHealthLoop_early_stop (pre : List ServiceStatus) (bad : ServiceStatus)
    (post : List ServiceStatus) (hpre : ∀ s ∈ pre, serviceHealthy s = true)
    (hbad : serviceHealthy bad = false) :
    stackHealthLoop (pre ++ bad :: post) = (false, pre.length + 1) := by
  induction pre with
  | nil => simp [stackHealthLoop, hbad]
  | cons p pre ih =>
    have hp : serviceHealthy p = true := hpre p (by simp)
    have hrest := ih (fun s hs => hpre s (by simp [hs]))
    simp [stackHealthLoop, hp, hrest]

/-- C7: given a reachable daemon, `check_stack_health` returns `true` iff
every listed service is running; it publishes `docker_healthy` equal to its
result; and when the services are a run of healthy ones followed by a first
non-running/not-found one, the loop examines exactly the services up to and
including that first failure — never the remaining ones — and the check
publishes `false` and returns `false`. -/
theorem checkStackHealth_short_circuits (services : List ServiceStatus) (st : Store) :
    ((checkStackHealth services st).1 = true ↔
      ∀ s ∈ services, serviceHealthy s = true) ∧
    ((checkStackHealth services st).2.get "docker_healthy" =
      some (.bool (checkStackHealth services st).1)) ∧
    (∀ pre bad post, services = pre ++ bad :: post →
      (∀ s ∈ pre, serviceHealthy s = true) → serviceHealthy bad = false →
      (checkStackHealth services st).1 = false ∧
      (stackHealthLoop services).2 = pre.length + 1) := by
  have hall : ∀ l : List ServiceStatus, (stackHealthLoop l).1 = l.all serviceHealthy := by
    intro l
    induction l with
    | nil => rfl
    | cons s rest ih => by_cases h : serviceHealthy s <;> simp [stackHealthLoop, h, ih]
  refine ⟨?_, ?_, ?_⟩
  · simp [checkStackHealth, hall, List.all_eq_true]
  · by_cases h : (stackHealthLoop services).1 <;>
      simp [checkStackHealth, h, Store.get, Store.set, List.find?]
  · intro pre bad post hdecomp hpre hbad
    subst hdecomp
    have hloop := stackHealthLoop_early_stop pre bad post hpre hbad
    constructor
    · simp [checkStackHealth, hloop]
    · simp [hloop]

/-- Witness for C7: four services where the second is missing — the check
returns `false`, publishes `docker_healthy = false`, and examines exactly
two services; and a fully running pair returns `true`. -/
theorem checkStackHealth_short_circuits_witness :
    (checkStackHealth [.status "running", .notFound, .status "running",
        .probeError "api error"] []).1 = false ∧
    (stackHealthLoop [ServiceStatus.status "running", .notFound, .status "running",
        .probeError "api error"]).2 = 2 ∧
    (checkStackHealth [.status "running", .status "running"] []).1 = true := by
  refine ⟨?_, ?_, ?_⟩
  · exact ((checkStackHealth_short_circuits [.status "running", .notFound,
      .status "running", .probeError "api error"] []).2.2 [.status "running"] .notFound
      [.status "running", .probeError "api error"] rfl (by decide) (by decide)).1
  · exact ((checkStackHealth_short_circuits [.status "running", .notFound,
      .status "running", .probeError "api error"] []).2.2 [.status "running"] .notFound
      [.status "running", .probeError "api error"] rfl (by decide) (by decide)).2
  · exact (checkStackHealth_short_circuits [.status "running", .status "running"]
      []).1.mpr (by decide)

/-! ## Configuration manager (`config_manager.py`)

`get` walks a dotted key through the nested YAML document; `reload_config`
executes `self.config = self._load_config()`, so the attribute is replaced
only after `_load_config` returned a whole document, and an exception in
`_load_config` (absent file) leaves `self.config` untouched. -/

/-- A parsed YAML value: a scalar or a nested mapping. -/
inductive ConfigVal where
  | leaf : PyVal → ConfigVal
  | dict : List (String × ConfigVal) → ConfigVal

/-- Embeds `ConfigManager.get`, with the dotted key pre-split into segments:
descend while the current value is a dict containing the segment,
otherwise return the default. -/
def cfgGet (v : ConfigVal) (keys : List String) (d : ConfigVal) : ConfigVal :=
  match keys, v with
  | [], v => v
  | k :: ks, .dict entries =>
    match entries.find? (fun p => p.1 == k) with
    | some p => cfgGet p.2 ks d
    | none => d
  | _ :: _, .leaf _ => d

/-- The in-memory state of a `ConfigManager`. -/
structure ConfigState where
  config : ConfigVal

/-- Embeds `ConfigManager._load_config`: raises `FileNotFoundError` when the file
is absent, otherwise yields the parsed document. -/
def loadConfig (file : Option ConfigVal) : Except String ConfigVal :=
  match file with
  | none => .error "FileNotFoundError: config file not found"
  | some doc => .ok doc

/-- Embeds `ConfigManager.reload_config`: `self.config = self._load_config()` —
on success the config is replaced by the freshly loaded document, on an
exception the old state is returned with the error propagating. -/
def reloadConfig (m : ConfigState) (file : Option ConfigVal) :
    Except String Unit × ConfigState :=
  match loadConfig file with
  | .ok doc => (.ok (), { config := doc })
  | .error e => (.error e, m)

/-- Runs `ConfigManager.get` on the manager's current document. -/
def ConfigState.get (m : ConfigState) (keys : List String) (d : ConfigVal) : ConfigVal :=
  cfgGet m.config keys d

/-- C9: a successful reload replaces the whole in-memory config with the
newly loaded document — every subsequent `get` reads that document — and a
failed load (absent file) raises while leaving the in-memory config exactly
as it was. -/
theorem reloadConfig_atomic (m : ConfigState) (file : Option ConfigVal) :
    (∀ doc, file = some doc →
      reloadConfig m file = (.ok (), { config := doc }) ∧
      ∀ keys d, (reloadConfig m file).2.get keys d = cfgGet doc keys d) ∧
    (file = none → reloadConfig m file =
      (.error "FileNotFoundError: config file not found", m)) := by
  constructor
  · intro doc hdoc
    subst hdoc
    exact ⟨rfl, fun keys d => rfl⟩
  · intro hnone
    subst hnone
    rfl

/-- Witness for C9: reloading from a one-entry document replaces the
config and `get` reads the new value; reloading with the file absent
returns the untouched manager. -/
theorem reloadConfig_atomic_witness :
    reloadConfig ⟨.leaf (.str "old")⟩ (some (.dict [("redis", .leaf (.num 6379))])) =
      (.ok (), ⟨.dict [("redis", .leaf (.num 6379))]⟩) ∧
    (reloadConfig ⟨.leaf (.str "old")⟩
        (some (.dict [("redis", .leaf (.num 6379))]))).2.get ["redis"] (.leaf (.str "?")) =
      ConfigVal.leaf (.num 6379) ∧
    reloadConfig ⟨.leaf (.str "old")⟩ none =
      (.error "FileNotFoundError: config file not found", ⟨.leaf (.str "old")⟩) := by
  refine ⟨?_, ?_, ?_⟩
  · exact ((reloadConfig_atomic ⟨.leaf (.str "old")⟩
      (some (.dict [("redis", .leaf (.num 6379))]))).1 _ rfl).1
  · have h := ((reloadConfig_atomic ⟨.leaf (.str "old")⟩
      (some (.dict [("redis", .leaf (.num 6379))]))).1 _ rfl).2 ["redis"] (.leaf (.str "?"))
    rw [h]
    rfl
  · exact (reloadConfig_atomic ⟨.leaf (.str "old")⟩ none).2 rfl

/-! ## Bulk send to OpenSearch (`aws_manager.py`, `send_bulk_to_opensearch`)

After the endpoint guard, `if not logs: return True`; then `bulk_data`
collects an action line and a document line per dictionary entry, skipping
anything else; `if not bulk_data: return True`; only then does the
retry-while loop issue network requests and update the store. -/

/-- An element of the `logs` argument: a dictionary, or something else
(skipped with a warning). -/
inductive LogEntry where
  | dict : List (String × PyVal) → LogEntry
  | other : String → LogEntry

/-- Embeds `isinstance(log, dict)`. -/
def LogEntry.isDict : LogEntry → Bool
  | .dict _ => true
  | .other _ => false

/-- One line of the newline-delimited `_bulk` payload: the `json.dumps` of
the index action for a document, or of the document itself. -/
inductive BulkLine where
  | action : String → BulkLine
  | document : List (String × PyVal) → BulkLine

/-- The `for log in logs` loop building `bulk_data`: two lines per
dictionary entry, non-dictionaries skipped. -/
def bulkData (indexName : String) : List LogEntry → List BulkLine
  | [] => []
  | .dict d :: rest => .action indexName :: .document d :: bulkData indexName rest
  | .other _ :: rest => bulkData indexName rest

/-- Outcome of one `client.bulk` attempt: a response (its truthiness and
the truthiness of its `errors` field), or a raised exception — any of the
three `except` arms, with the recorded error message. -/
inductive BulkOutcome where
  | resp : Bool → Bool → BulkOutcome
  | raised : String → BulkOutcome

/-- The `while retries < max_retries` loop of `send_bulk_to_opensearch`,
with the final argument the remaining budget `max_retries - retries`.
Returns the boolean result, the store, and the number of network attempts
issued. -/
def sendBulkLoop (net : Nat → BulkOutcome) (initialBackoff retries : Nat)
    (st : Store) : Nat → Bool × Store × Nat
  | 0 => (false, st, 0)
  | remaining + 1 =>
    match net retries with
    | .resp nonEmpty errors =>
      if nonEmpty && !errors then (true, st.set "aws_ready" (.bool true), 1)
      else (false,
        (st.set "aws_ready" (.bool false)).set "last_error"
          (.str "OpenSearch bulk error"), 1)
    | .raised msg =>
      let st' := (st.set "aws_ready" (.bool false)).set "last_error" (.str msg)
      match remaining with
      | 0 => (false, st', 1)
      | r + 1 =>
        let t := sendBulkLoop net initialBackoff (retries + 1) st' (r + 1)
        (t.1, t.2.1, t.2.2 + 1)

/-- Embeds `AWSManager.send_bulk_to_opensearch`: endpoint guard, the two
empty-payload early returns, then the retry loop. -/
def sendBulkToOpensearch (endpoint : Option String) (indexName : String)
    (logs : List LogEntry) (net : Nat → BulkOutcome) (maxRetries initialBackoff : Nat)
    (st : Store) : Bool × Store × Nat :=
  match endpoint with
  | none =>
    (false,
      (st.set "aws_ready" (.bool false)).set "last_error"
        (.str "OpenSearch endpoint not configured."), 0)
  | some _ =>
    if logs.isEmpty then (true, st, 0)
    else if (bulkData indexName logs).isEmpty then (true, st, 0)
    else sendBulkLoop net initialBackoff 0 st maxRetries

/-- A list with no dictionary entries contributes no payload line. -/
theorem bulkData_eq_nil_of_no_dict (indexName : String) (logs : List LogEntry)
    (h : logs.all (fun l => !l.isDict) = true) : bulkData indexName logs = [] := by
  induction logs with
  | nil => rfl
  | cons l rest ih =>
    cases l with
    | dict d => simp [LogEntry.isDict] at h
    | other s =>
      simp [LogEntry.isDict] at h
      simp [bulkData, ih (by simpa using h)]

/-- C10: with a configured endpoint, a `logs` argument that is empty or
holds no dictionary entry makes `send_bulk_to_opensearch` return `True`
immediately: zero network attempts (so no retry either) and a store
without a single write. -/
theorem sendBulk_no_payload_is_noop (ep indexName : String) (logs : List LogEntry)
    (net : Nat → BulkOutcome) (maxRetries initialBackoff : Nat) (st : Store)
    (h : logs.all (fun l => !l.isDict) = true) :
    sendBulkToOpensearch (some ep) indexName logs net maxRetries initialBackoff st =
      (true, st, 0) := by
  cases logs with
  | nil => rfl
  | cons l rest =>
    simp [sendBulkToOpensearch, bulkData_eq_nil_of_no_dict indexName (l :: rest) h]

/-- Witness for C10: an empty batch and a batch of two non-dictionary
entries are both no-ops on a store already holding a key. -/
theorem sendBulk_no_payload_is_noop_witness :
    sendBulkToOpensearch (some "https://os.example") "suricata-2026.10.12" []
        (fun _ => .raised "unreachable") 5 1 [("aws_ready", .bool true)] =
      (true, [("aws_ready", .bool true)], 0) ∧
    sendBulkToOpensearch (some "https://os.example") "suricata-2026.10.12"
        [.other "plain text line", .other "another"]
        (fun _ => .raised "unreachable") 5 1 [("aws_ready", .bool true)] =
      (true, [("aws_ready", .bool true)], 0) := by
  constructor
  · exact sendBulk_no_payload_is_noop "https://os.example" "suricata-2026.10.12" []
      (fun _ => .raised "unreachable") 5 1 [("aws_ready", .bool true)] rfl
  · exact sendBulk_no_payload_is_noop "https://os.example" "suricata-2026.10.12"
      [.other "plain text line", .other "another"]
      (fun _ => .raised "unreachable") 5 1 [("aws_ready", .bool true)] rfl
